import Mathlib

/-!
Verification of the workpunch-server clock-record synchronization logic.

The definitions below are a shallow embedding of the `/api/sync-clock`
request handler (the lock-based revision in `index.js`), together with its
`acquireLock` / `releaseLock` helpers and the `TIMEZONE_MAP` lookup table.
Instants are modelled as `Int` milliseconds since the epoch (the value of
`Date.getTime()`); a client string that fails to parse (`isNaN`) is
modelled as `RawTime.invalid`.  The external Salesforce record set is the
mutable state; each external REST call the handler issues is recorded in a
trace, and an oracle decides whether each external call succeeds or fails,
so that every exit path of the handler (success, business rejection,
external failure) is represented.
-/

/-- A client-supplied timestamp string after `new Date(...)` parsing:
either a valid instant (epoch milliseconds) or an invalid date (NaN). -/
inductive RawTime where
  | invalid : RawTime
  | valid : Int → RawTime
deriving DecidableEq, Repr

/-- The body of a `POST /api/sync-clock` request:
`{ userId, clockIn, clockOut, isRemote, timezone }`.
`clockOut = none` models an absent (falsy) `clockOut` field. -/
structure SyncRequest where
  userId : String
  clockIn : RawTime
  clockOut : Option RawTime
  isRemote : Bool
  timezone : String
deriving DecidableEq, Repr

/-- A `Workpunch__c` record in the external Salesforce org. -/
structure SFRecord where
  recordId : Nat
  name : String
  employeeEmail : String
  punchInTime : Int
  punchOutTime : Option Int
  locationType : String
deriving DecidableEq, Repr

/-- The external record store; Salesforce assigns fresh ids on create. -/
structure SFState where
  records : List SFRecord
  nextId : Nat
deriving DecidableEq, Repr

/-- A row of the `companies` table (only the fields the handler reads). -/
structure Company where
  accessToken : String
  instanceUrl : String
deriving DecidableEq, Repr

/-- A row of the `user_locks` table:
`(user_id, lock_id, created_at)` with `user_id` the unique key. -/
structure LockRow where
  userId : String
  lockId : Nat
  createdAt : Int
deriving DecidableEq, Repr

/-- The persistent state visible to one handler invocation: the
`companies` table, the `user_locks` table, the external record set, and a
counter standing in for the `uuidv4()` source of fresh lock ids. -/
structure ServerState where
  companies : List Company
  locks : List LockRow
  sf : SFState
  nextLockId : Nat
deriving DecidableEq, Repr

/-- Outcome of each external Salesforce call: `queryOk` for the SOQL
query the handler issues, `writeOk` for the subsequent create/patch. -/
structure ExtOracle where
  queryOk : Bool
  writeOk : Bool
deriving DecidableEq, Repr

/-- An external REST call issued by the handler, in issue order. -/
inductive ExtCall where
  | queryActive : String → ExtCall
  | patchOut : Nat → Int → ExtCall
  | createRec : String → Int → String → String → ExtCall
deriving DecidableEq, Repr

/-- The JSON responses the sync-clock handler can produce. -/
inductive RespBody where
  | alreadyProcessing
  | noCompany
  | invalidClockIn
  | invalidClockOut
  | orderingViolation
  | syncError
  | noActiveRecord
  | clockInMismatch
  | updateFailed
  | patched : Nat → RespBody
  | alreadyClockedIn : Nat → String → Int → String → RespBody
  | created : Nat → RespBody
  | createFailed
deriving DecidableEq, Repr

/-- The HTTP status code attached to each response body in the source. -/
def RespBody.statusCode : RespBody → Nat
  | .alreadyProcessing => 200
  | .noCompany => 404
  | .invalidClockIn => 400
  | .invalidClockOut => 400
  | .orderingViolation => 400
  | .syncError => 500
  | .noActiveRecord => 404
  | .clockInMismatch => 400
  | .updateFailed => 500
  | .patched _ => 200
  | .alreadyClockedIn _ _ _ _ => 200
  | .created _ => 200
  | .createFailed => 500

/-- What one handler invocation yields: the response, the IANA zone the
handler derives from the hint for logging/display (`none` when the
request is rejected before that point), the trace of external calls, and
the post-state. -/
structure SyncOutcome where
  resp : RespBody
  displayZone : Option String
  calls : List ExtCall
  state : ServerState
deriving DecidableEq, Repr

/-- The `TIMEZONE_MAP` abbreviation table from `index.js`. -/
def TIMEZONE_MAP : List (String × String) :=
  [("EDT", "America/New_York"), ("EST", "America/New_York"),
   ("CDT", "America/Chicago"), ("CST", "America/Chicago"),
   ("MDT", "America/Denver"), ("MST", "America/Denver"),
   ("PDT", "America/Los_Angeles"), ("PST", "America/Los_Angeles"),
   ("AKDT", "America/Anchorage"), ("AKST", "America/Anchorage"),
   ("HADT", "America/Adak"), ("HAST", "America/Adak"),
   ("HST", "Pacific/Honolulu"),
   ("IST", "Asia/Kolkata"), ("IST-5:30", "Asia/Kolkata"),
   ("IST+5:30", "Asia/Kolkata"), ("India", "Asia/Kolkata"),
   ("Kolkata", "Asia/Kolkata"), ("Calcutta", "Asia/Kolkata"),
   ("Mumbai", "Asia/Kolkata"), ("Delhi", "Asia/Kolkata"),
   ("Chennai", "Asia/Kolkata"), ("Bangalore", "Asia/Kolkata")]

/-- `TIMEZONE_MAP[timezone] || 'America/New_York'`: unknown hints fall
back to the fixed default zone. -/
def lookupTimezone (tz : String) : String :=
  (TIMEZONE_MAP.lookup tz).getD ("America/New_York")

/-- Gregorian civil date from days since 1970-01-01 (the behaviour of the
`getFullYear`/`getMonth`/`getDate` calls the handler uses to build the
record name, with the server clock taken in UTC). -/
def civilFromDays (z : Int) : Int × Nat × Nat :=
  let zday : Int := z + 719468
  let era : Int := zday / 146097
  let doe : Nat := (zday - era * 146097).toNat
  let yoe : Nat := (doe - doe / 1460 + doe / 36524 - doe / 146096) / 365
  let doy : Nat := doe - (365 * yoe + yoe / 4 - yoe / 100)
  let mp : Nat := (5 * doy + 2) / 153
  let d : Nat := doy - (153 * mp + 2) / 5 + 1
  let m : Nat := if mp < 10 then mp + 3 else mp - 9
  ((yoe : Int) + era * 400 + (if m ≤ 2 then 1 else 0), m, d)

/-- Zero-padded two-digit rendering (`String(n).padStart(2, '0')`). -/
def padTwo (n : Nat) : String :=
  if n < 10 then "0" ++ toString n else toString n

/-- The `YYYY-MM-DD` date string built from the clock-in instant. -/
def formatDateYMD (ms : Int) : String :=
  let c := civilFromDays (Int.fdiv ms 86400000)
  toString c.1 ++ "-" ++ padTwo c.2.1 ++ "-" ++ padTwo c.2.2

/-- `userId.split('@')[0]`: everything before the first `@`. -/
def personNameOf (userId : String) : String :=
  (userId.splitOn ("@")).headD ("")

/-- `acquireLock(userId)`: `INSERT INTO user_locks ... ON CONFLICT
(user_id) DO NOTHING RETURNING lock_id`.  Returns the fresh lock id when
the insert happened and `none` when a row for `userId` already exists;
it never inspects or deletes existing rows, whatever their age. -/
def acquireLock (uid : String) (st : ServerState) (now : Int) :
    Option Nat × ServerState :=
  if st.locks.any (fun l => l.userId == uid) then
    (none, st)
  else
    (some st.nextLockId,
     { st with
        locks := st.locks ++ [⟨uid, st.nextLockId, now⟩],
        nextLockId := st.nextLockId + 1 })

/-- `releaseLock(userId)`: `DELETE FROM user_locks WHERE user_id = $1`. -/
def releaseLock (uid : String) (st : ServerState) : ServerState :=
  { st with locks := st.locks.filter (fun l => l.userId != uid) }

/-- The SOQL active-record filter:
`Employee_Email__c = uid AND Punch_Out_Time__c = null`. -/
def isActive (uid : String) (r : SFRecord) : Bool :=
  r.employeeEmail == uid && r.punchOutTime.isNone

/-- `ORDER BY Punch_In_Time__c DESC LIMIT 1`: the record with the
largest punch-in instant, if any. -/
def pickLatest : List SFRecord → Option SFRecord
  | [] => none
  | r :: rs =>
      match pickLatest rs with
      | none => some r
      | some b => if b.punchInTime > r.punchInTime then some b else some r

/-- The query both branches of the handler issue: the most recent record
for `uid` with a null punch-out. -/
def activeRecord (records : List SFRecord) (uid : String) : Option SFRecord :=
  pickLatest (records.filter (isActive uid))

/-- `PATCH .../Workpunch__c/{rid}` with `Punch_Out_Time__c` set. -/
def patchRecord (sf : SFState) (rid : Nat) (pOut : Int) : SFState :=
  { sf with
     records := sf.records.map fun r =>
       if r.recordId = rid then { r with punchOutTime := some pOut } else r }

/-- `POST .../Workpunch__c` with the clock-in payload; Salesforce
assigns the fresh record id. -/
def createRecord (sf : SFState) (name uid : String) (pIn : Int)
    (loc : String) : SFState × Nat :=
  ({ records := sf.records ++
      [{ recordId := sf.nextId, name := name, employeeEmail := uid,
         punchInTime := pIn, punchOutTime := none, locationType := loc }],
     nextId := sf.nextId + 1 }, sf.nextId)

/-- The body of the `try` block of the sync-clock handler: company
lookup, date validation, ordering check, then the clock-out
(find-and-patch) or clock-in (check-and-create) flow.  The lock is
assumed held; releasing it is the caller's `finally`. -/
def syncClockBody (o : ExtOracle) (req : SyncRequest) (st : ServerState) :
    SyncOutcome :=
  if st.companies.isEmpty then
    { resp := .noCompany, displayZone := none, calls := [], state := st }
  else
    match req.clockIn with
    | .invalid =>
        { resp := .invalidClockIn, displayZone := none, calls := [], state := st }
    | .valid cIn =>
      match req.clockOut with
      | some .invalid =>
          { resp := .invalidClockOut, displayZone := none, calls := [], state := st }
      | some (.valid cOut) =>
          if cOut ≤ cIn then
            { resp := .orderingViolation, displayZone := none, calls := [], state := st }
          else
            if o.queryOk then
              match activeRecord st.sf.records req.userId with
              | none =>
                  { resp := .noActiveRecord,
                    displayZone := some (lookupTimezone req.timezone),
                    calls := [.queryActive req.userId], state := st }
              | some r =>
                  if (r.punchInTime - cIn).natAbs > 60000 then
                    { resp := .clockInMismatch,
                      displayZone := some (lookupTimezone req.timezone),
                      calls := [.queryActive req.userId], state := st }
                  else if o.writeOk then
                    { resp := .patched r.recordId,
                      displayZone := some (lookupTimezone req.timezone),
                      calls := [.queryActive req.userId, .patchOut r.recordId cOut],
                      state := { st with sf := patchRecord st.sf r.recordId cOut } }
                  else
                    { resp := .updateFailed,
                      displayZone := some (lookupTimezone req.timezone),
                      calls := [.queryActive req.userId, .patchOut r.recordId cOut],
                      state := st }
            else
              { resp := .syncError,
                displayZone := some (lookupTimezone req.timezone),
                calls := [.queryActive req.userId], state := st }
      | none =>
          if o.queryOk then
            match activeRecord st.sf.records req.userId with
            | some r =>
                { resp := .alreadyClockedIn r.recordId r.name r.punchInTime r.locationType,
                  displayZone := some (lookupTimezone req.timezone),
                  calls := [.queryActive req.userId], state := st }
            | none =>
                if o.writeOk then
                  { resp := .created
                      (createRecord st.sf
                        (personNameOf req.userId ++ "-" ++ formatDateYMD cIn)
                        req.userId cIn
                        (if req.isRemote then "Remote" else "In Office")).2,
                    displayZone := some (lookupTimezone req.timezone),
                    calls := [.queryActive req.userId,
                      .createRec (personNameOf req.userId ++ "-" ++ formatDateYMD cIn)
                        cIn (if req.isRemote then "Remote" else "In Office") req.userId],
                    state := { st with
                      sf := (createRecord st.sf
                        (personNameOf req.userId ++ "-" ++ formatDateYMD cIn)
                        req.userId cIn
                        (if req.isRemote then "Remote" else "In Office")).1 } }
                else
                  { resp := .createFailed,
                    displayZone := some (lookupTimezone req.timezone),
                    calls := [.queryActive req.userId,
                      .createRec (personNameOf req.userId ++ "-" ++ formatDateYMD cIn)
                        cIn (if req.isRemote then "Remote" else "In Office") req.userId],
                    state := st }
          else
            { resp := .syncError,
              displayZone := some (lookupTimezone req.timezone),
              calls := [.queryActive req.userId], state := st }

/-- One invocation of `POST /api/sync-clock` (the lock-based revision):
try to acquire the per-user lock; on contention answer 200
"Request already being processed" without touching anything; otherwise
run the body and release the lock in `finally` on every exit path. -/
def syncClock (o : ExtOracle) (req : SyncRequest) (st : ServerState)
    (now : Int) : SyncOutcome :=
  match acquireLock req.userId st now with
  | (none, _) =>
      { resp := .alreadyProcessing, displayZone := none, calls := [], state := st }
  | (some _, st1) =>
      { syncClockBody o req st1 with
         state := releaseLock req.userId (syncClockBody o req st1).state }

/-- A sequence of sync-clock invocations, threading the state. -/
def runSync (st : ServerState) : List (ExtOracle × SyncRequest × Int) → ServerState
  | [] => st
  | c :: cs => runSync (syncClock c.1 c.2.1 st c.2.2).state cs

/-- Number of active (null punch-out) records for one subject. -/
def activeCount (sf : SFState) (uid : String) : Nat :=
  (sf.records.filter (isActive uid)).length

/-- The at-most-one-active-punch invariant of the external record set. -/
def AtMostOneActive (st : ServerState) : Prop :=
  ∀ uid, activeCount st.sf uid ≤ 1

/-- The response/calls/state part of an outcome, without the
display-only zone. -/
def SyncOutcome.observable (x : SyncOutcome) :
    RespBody × List ExtCall × ServerState :=
  (x.resp, x.calls, x.state)

theorem pickLatest_cons_ne_none (r : SFRecord) (rs : List SFRecord) :
    pickLatest (r :: rs) ≠ none := by
  simp only [pickLatest]
  split
  · simp
  · split <;> simp

theorem pickLatest_eq_none {l : List SFRecord} :
    pickLatest l = none ↔ l = [] := by
  cases l with
  | nil => simp [pickLatest]
  | cons r rs =>
      constructor
      · intro h; exact absurd h (pickLatest_cons_ne_none r rs)
      · intro h; cases h

theorem pickLatest_mem {l : List SFRecord} {r : SFRecord}
    (h : pickLatest l = some r) : r ∈ l := by
  induction l with
  | nil => simp [pickLatest] at h
  | cons a as ih =>
      simp only [pickLatest] at h
      cases hp : pickLatest as with
      | none =>
          simp only [hp, Option.some.injEq] at h
          rw [← h]
          exact List.mem_cons_self a as
      | some b =>
          simp only [hp] at h
          split at h <;>
            (simp only [Option.some.injEq] at h
             first
               | (rw [h] at hp; exact List.mem_cons_of_mem _ (ih hp))
               | (rw [← h]; exact List.mem_cons_self a as))

theorem length_filter_map_le {α : Type} (f : α → α) (p : α → Bool)
    (l : List α) (h : ∀ x, p (f x) = true → f x = x) :
    ((l.map f).filter p).length ≤ (l.filter p).length := by
  induction l with
  | nil => simp
  | cons x xs ih =>
      simp only [List.map_cons, List.filter_cons]
      by_cases hx : p (f x) = true
      · have hfx := h x hx
        rw [hfx] at hx ⊢
        simp only [hx, if_true, List.length_cons]
        exact Nat.succ_le_succ ih
      · rw [Bool.not_eq_true] at hx
        simp only [hx, Bool.false_eq_true, if_false]
        by_cases hpx : p x = true
        · simp only [hpx, if_true, List.length_cons]
          exact Nat.le_succ_of_le ih
        · rw [Bool.not_eq_true] at hpx
          simp only [hpx, Bool.false_eq_true, if_false]
          exact ih

theorem eq_singleton_of_length_le {α : Type} {l : List α} {r : α}
    (hlen : l.length ≤ 1) (hmem : r ∈ l) : l = [r] := by
  cases l with
  | nil => simp at hmem
  | cons a as =>
      cases as with
      | nil =>
          simp only [List.mem_singleton] at hmem
          rw [hmem]
      | cons b bs => simp at hlen

theorem activeCount_patch_le (sf : SFState) (rid : Nat) (v : Int)
    (uid : String) :
    activeCount (patchRecord sf rid v) uid ≤ activeCount sf uid := by
  simp only [activeCount, patchRecord]
  apply length_filter_map_le
  intro x hx
  by_cases hid : x.recordId = rid
  · simp [hid, isActive] at hx
  · simp [hid]

theorem activeRecord_patch_none (sf : SFState) (uid : String) (r : SFRecord)
    (hcount : activeCount sf uid ≤ 1)
    (hact : activeRecord sf.records uid = some r) (v : Int) :
    activeRecord (patchRecord sf r.recordId v).records uid = none := by
  have hmem : r ∈ sf.records.filter (isActive uid) := pickLatest_mem hact
  have hsing : sf.records.filter (isActive uid) = [r] :=
    eq_singleton_of_length_le hcount hmem
  rw [activeRecord, pickLatest_eq_none, List.filter_eq_nil_iff]
  intro a ha
  simp only [patchRecord, List.mem_map] at ha
  obtain ⟨y, hy, hfy⟩ := ha
  by_cases hid : y.recordId = r.recordId
  · rw [if_pos hid] at hfy
    rw [← hfy]
    simp [isActive]
  · rw [if_neg hid] at hfy
    rw [← hfy]
    intro hax
    have : y ∈ sf.records.filter (isActive uid) :=
      List.mem_filter.mpr ⟨hy, hax⟩
    rw [hsing, List.mem_singleton] at this
    exact hid (congrArg SFRecord.recordId this)

theorem any_filter_ne (l : List LockRow) (uid : String) :
    (l.filter (fun x => x.userId != uid)).any (fun x => x.userId == uid)
      = false := by
  induction l with
  | nil => rfl
  | cons a as ih =>
      by_cases ha : a.userId = uid
      · simp [List.filter_cons, ha, ih]
      · simp [List.filter_cons, ha, ih]

theorem acquireLock_sf (uid : String) (st : ServerState) (now : Int) :
    (acquireLock uid st now).2.sf = st.sf := by
  unfold acquireLock
  split <;> rfl

theorem acquireLock_companies (uid : String) (st : ServerState) (now : Int) :
    (acquireLock uid st now).2.companies = st.companies := by
  unfold acquireLock
  split <;> rfl

theorem syncClockBody_locks (o : ExtOracle) (req : SyncRequest)
    (st : ServerState) :
    (syncClockBody o req st).state.locks = st.locks := by
  unfold syncClockBody
  repeat' split
  all_goals rfl

theorem syncClock_contended (o : ExtOracle) (req : SyncRequest)
    (st : ServerState) (now : Int)
    (hlock : st.locks.any (fun l => l.userId == req.userId) = true) :
    syncClock o req st now =
      { resp := .alreadyProcessing, displayZone := none, calls := [],
        state := st } := by
  simp [syncClock, acquireLock, hlock]

theorem syncClock_clockout_noactive (o : ExtOracle) (uid tz : String)
    (cIn cOut : Int) (rem : Bool) (st : ServerState) (now : Int)
    (hlock : st.locks.any (fun l => l.userId == uid) = false)
    (hcoE : st.companies.isEmpty = false)
    (hq : o.queryOk = true)
    (hord : cIn < cOut)
    (hnone : activeRecord st.sf.records uid = none) :
    syncClock o ⟨uid, .valid cIn, some (.valid cOut), rem, tz⟩ st now =
      { resp := .noActiveRecord,
        displayZone := some (lookupTimezone tz),
        calls := [.queryActive uid],
        state := { companies := st.companies,
                   locks := (st.locks ++ [LockRow.mk uid st.nextLockId now]).filter
                     (fun l => l.userId != uid),
                   sf := st.sf,
                   nextLockId := st.nextLockId + 1 } } := by
  have hnle : ¬ (cOut ≤ cIn) := not_le.mpr hord
  simp [syncClock, acquireLock, syncClockBody, releaseLock, hlock, hcoE,
    hq, hnle, hnone]

theorem syncClock_clockout_mismatch (o : ExtOracle) (uid tz : String)
    (cIn cOut : Int) (rem : Bool) (st : ServerState) (now : Int)
    (r : SFRecord)
    (hlock : st.locks.any (fun l => l.userId == uid) = false)
    (hcoE : st.companies.isEmpty = false)
    (hq : o.queryOk = true)
    (hord : cIn < cOut)
    (hact : activeRecord st.sf.records uid = some r)
    (hgt : 60000 < (r.punchInTime - cIn).natAbs) :
    syncClock o ⟨uid, .valid cIn, some (.valid cOut), rem, tz⟩ st now =
      { resp := .clockInMismatch,
        displayZone := some (lookupTimezone tz),
        calls := [.queryActive uid],
        state := { companies := st.companies,
                   locks := (st.locks ++ [LockRow.mk uid st.nextLockId now]).filter
                     (fun l => l.userId != uid),
                   sf := st.sf,
                   nextLockId := st.nextLockId + 1 } } := by
  have hnle : ¬ (cOut ≤ cIn) := not_le.mpr hord
  simp [syncClock, acquireLock, syncClockBody, releaseLock, hlock, hcoE,
    hq, hnle, hact, hgt]

theorem syncClock_clockout_patch (o : ExtOracle) (uid tz : String)
    (cIn cOut : Int) (rem : Bool) (st : ServerState) (now : Int)
    (r : SFRecord)
    (hlock : st.locks.any (fun l => l.userId == uid) = false)
    (hcoE : st.companies.isEmpty = false)
    (hq : o.queryOk = true) (hw : o.writeOk = true)
    (hord : cIn < cOut)
    (hact : activeRecord st.sf.records uid = some r)
    (htol : (r.punchInTime - cIn).natAbs ≤ 60000) :
    syncClock o ⟨uid, .valid cIn, some (.valid cOut), rem, tz⟩ st now =
      { resp := .patched r.recordId,
        displayZone := some (lookupTimezone tz),
        calls := [.queryActive uid, .patchOut r.recordId cOut],
        state := { companies := st.companies,
                   locks := (st.locks ++ [LockRow.mk uid st.nextLockId now]).filter
                     (fun l => l.userId != uid),
                   sf := patchRecord st.sf r.recordId cOut,
                   nextLockId := st.nextLockId + 1 } } := by
  have hnle : ¬ (cOut ≤ cIn) := not_le.mpr hord
  have hngt : ¬ (60000 < (r.punchInTime - cIn).natAbs) := not_lt.mpr htol
  simp [syncClock, acquireLock, syncClockBody, releaseLock, hlock, hcoE,
    hq, hw, hnle, hact, hngt]

theorem syncClock_clockin_already (o : ExtOracle) (uid tz : String)
    (cIn : Int) (rem : Bool) (st : ServerState) (now : Int) (r : SFRecord)
    (hlock : st.locks.any (fun l => l.userId == uid) = false)
    (hcoE : st.companies.isEmpty = false)
    (hq : o.queryOk = true)
    (hact : activeRecord st.sf.records uid = some r) :
    syncClock o ⟨uid, .valid cIn, none, rem, tz⟩ st now =
      { resp := .alreadyClockedIn r.recordId r.name r.punchInTime
          r.locationType,
        displayZone := some (lookupTimezone tz),
        calls := [.queryActive uid],
        state := { companies := st.companies,
                   locks := (st.locks ++ [LockRow.mk uid st.nextLockId now]).filter
                     (fun l => l.userId != uid),
                   sf := st.sf,
                   nextLockId := st.nextLockId + 1 } } := by
  simp [syncClock, acquireLock, syncClockBody, releaseLock, hlock, hcoE,
    hq, hact]

def company1 : Company := ⟨"token", "url"⟩

def record1 : SFRecord :=
  { recordId := 0, name := "alice-1970-01-01",
    employeeEmail := "alice@example.com", punchInTime := 0,
    punchOutTime := none, locationType := "Remote" }

def stateNoActive : ServerState :=
  { companies := [company1], locks := [],
    sf := { records := [], nextId := 0 }, nextLockId := 0 }

def stateOneActive : ServerState :=
  { companies := [company1], locks := [],
    sf := { records := [record1], nextId := 1 }, nextLockId := 0 }

def stateStaleLock : ServerState :=
  { companies := [company1], locks := [⟨"alice@example.com", 42, 0⟩],
    sf := { records := [], nextId := 0 }, nextLockId := 43 }

theorem activeCount_create_le (sf : SFState) (nm uid0 : String) (pIn : Int)
    (loc : String) (uid : String)
    (hnone : activeRecord sf.records uid0 = none)
    (h : activeCount sf uid ≤ 1) :
    activeCount (createRecord sf nm uid0 pIn loc).1 uid ≤ 1 := by
  have hnil : sf.records.filter (isActive uid0) = [] := by
    rw [activeRecord, pickLatest_eq_none] at hnone
    exact hnone
  simp only [activeCount, createRecord, List.filter_append,
    List.length_append]
  by_cases hu : uid0 = uid
  · subst hu
    rw [activeCount] at h
    rw [hnil]
    simp [isActive]
  · have hnew : isActive uid
        { recordId := sf.nextId, name := nm, employeeEmail := uid0,
          punchInTime := pIn, punchOutTime := none, locationType := loc }
        = false := by
      simp [isActive, hu]
    simp only [List.filter_cons, hnew, Bool.false_eq_true, if_false,
      List.filter_nil, List.length_nil]
    rw [activeCount] at h
    omega

theorem syncClockBody_preserves (o : ExtOracle) (req : SyncRequest)
    (st : ServerState) (h : ∀ u, activeCount st.sf u ≤ 1) :
    ∀ u, activeCount (syncClockBody o req st).state.sf u ≤ 1 := by
  intro u
  unfold syncClockBody
  repeat' split
  all_goals
    first
      | exact h u
      | exact le_trans (activeCount_patch_le _ _ _ _) (h u)
      | (apply activeCount_create_le <;> first | assumption | exact h u)

theorem syncClock_preserves_inv (o : ExtOracle) (req : SyncRequest)
    (st : ServerState) (now : Int) (h : AtMostOneActive st) :
    AtMostOneActive (syncClock o req st now).state := by
  unfold syncClock
  cases hacq : acquireLock req.userId st now with
  | mk ol st1 =>
      cases ol with
      | none => exact h
      | some k =>
          intro u
          have h2 : (acquireLock req.userId st now).2 = st1 := by rw [hacq]
          have hsf : st1.sf = st.sf := by rw [← h2, acquireLock_sf]
          have h1 : ∀ u2, activeCount st1.sf u2 ≤ 1 := by
            intro u2
            rw [hsf]
            exact h u2
          exact syncClockBody_preserves o req st1 h1 u

theorem runSync_preserves (calls : List (ExtOracle × SyncRequest × Int)) :
    ∀ st : ServerState, AtMostOneActive st →
      AtMostOneActive (runSync st calls) := by
  induction calls with
  | nil => intro st h; exact h
  | cons c cs ih =>
      intro st h
      exact ih _ (syncClock_preserves_inv c.1 c.2.1 st c.2.2 h)

theorem createRec_only_when_no_active (o : ExtOracle) (req : SyncRequest)
    (st : ServerState) (now : Int) (nm : String) (ci : Int) (lc : String)
    (hco : req.clockOut = none)
    (hmem : ExtCall.createRec nm ci lc req.userId
      ∈ (syncClock o req st now).calls) :
    activeRecord st.sf.records req.userId = none := by
  unfold syncClock at hmem
  cases hacq : acquireLock req.userId st now with
  | mk ol st1 =>
      rw [hacq] at hmem
      cases ol with
      | none => simp at hmem
      | some k =>
          have h2 : (acquireLock req.userId st now).2 = st1 := by rw [hacq]
          have hsf : st1.sf = st.sf := by rw [← h2, acquireLock_sf]
          rw [← hsf]
          simp only [syncClockBody, hco] at hmem
          split at hmem
          · simp at hmem
          · split at hmem
            · simp at hmem
            · split at hmem
              · split at hmem
                · simp at hmem
                · split at hmem <;> assumption
              · simp at hmem

theorem syncClockBody_observable_timezone (o : ExtOracle) (uid : String)
    (ci : RawTime) (co : Option RawTime) (rem : Bool) (tz tz2 : String)
    (st : ServerState) :
    (syncClockBody o ⟨uid, ci, co, rem, tz⟩ st).observable
      = (syncClockBody o ⟨uid, ci, co, rem, tz2⟩ st).observable := by
  unfold syncClockBody SyncOutcome.observable
  dsimp only
  repeat' split
  all_goals rfl

def demoCalls : List (ExtOracle × SyncRequest × Int) :=
  [(⟨true, true⟩, ⟨"alice@example.com", .valid 0, none, true, "EDT"⟩, 0),
   (⟨true, true⟩, ⟨"alice@example.com", .valid 0, none, true, "EDT"⟩, 1),
   (⟨true, true⟩,
    ⟨"alice@example.com", .valid 30000, some (.valid 3600000), true, "PST"⟩, 2)]

/-- Claim C1: after any sequence of sync-clock calls starting from a
state with at most one active record per subject, the external record
set still has at most one record with a null punch-out per subject; and
a clock-in-only request issues a create only when the active-record
query returned none. -/
theorem sync_at_most_one_active
    (calls : List (ExtOracle × SyncRequest × Int)) (st : ServerState)
    (h : AtMostOneActive st) :
    AtMostOneActive (runSync st calls) ∧
    (∀ o req now nm ci lc, req.clockOut = none →
       ExtCall.createRec nm ci lc req.userId
         ∈ (syncClock o req st now).calls →
       activeRecord st.sf.records req.userId = none) := by
  constructor
  · exact runSync_preserves calls st h
  · intro o req now nm ci lc hco hmem
    exact createRec_only_when_no_active o req st now nm ci lc hco hmem

/-- Witness for C1: the invariant holds concretely after a clock-in, a
duplicate clock-in and a clock-out, starting from the empty record set. -/
theorem sync_at_most_one_active_witness :
    AtMostOneActive (runSync stateNoActive demoCalls) :=
  (sync_at_most_one_active demoCalls stateNoActive
    (fun _ => Nat.zero_le 1)).1

/-- Claim C2: with an active record `r` for the subject, a clock-out
request patches `r` and answers 200 with `r`'s record id exactly when
the incoming clock-in is within 60 seconds of `r`'s punch-in; beyond the
tolerance it answers 400 `ClockInMismatch` and issues no write. -/
theorem clockout_tolerance_decision (o : ExtOracle) (uid tz : String)
    (cIn cOut : Int) (rem : Bool) (st : ServerState) (now : Int)
    (r : SFRecord)
    (hlock : st.locks.any (fun l => l.userId == uid) = false)
    (hcoE : st.companies.isEmpty = false)
    (hq : o.queryOk = true) (hw : o.writeOk = true)
    (hord : cIn < cOut)
    (hact : activeRecord st.sf.records uid = some r) :
    ((r.punchInTime - cIn).natAbs ≤ 60000 →
       (syncClock o ⟨uid, .valid cIn, some (.valid cOut), rem, tz⟩ st now).resp
           = .patched r.recordId ∧
       ((syncClock o ⟨uid, .valid cIn, some (.valid cOut), rem, tz⟩ st now).resp).statusCode
           = 200 ∧
       (syncClock o ⟨uid, .valid cIn, some (.valid cOut), rem, tz⟩ st now).state.sf
           = patchRecord st.sf r.recordId cOut) ∧
    (60000 < (r.punchInTime - cIn).natAbs →
       (syncClock o ⟨uid, .valid cIn, some (.valid cOut), rem, tz⟩ st now).resp
           = .clockInMismatch ∧
       ((syncClock o ⟨uid, .valid cIn, some (.valid cOut), rem, tz⟩ st now).resp).statusCode
           = 400 ∧
       (syncClock o ⟨uid, .valid cIn, some (.valid cOut), rem, tz⟩ st now).state.sf
           = st.sf ∧
       (syncClock o ⟨uid, .valid cIn, some (.valid cOut), rem, tz⟩ st now).calls
           = [.queryActive uid]) := by
  constructor
  · intro htol
    rw [syncClock_clockout_patch o uid tz cIn cOut rem st now r hlock hcoE
      hq hw hord hact htol]
    exact ⟨rfl, rfl, rfl⟩
  · intro hgt
    rw [syncClock_clockout_mismatch o uid tz cIn cOut rem st now r hlock
      hcoE hq hord hact hgt]
    exact ⟨rfl, rfl, rfl, rfl⟩

/-- Witness for C2: a clock-out 30 seconds off the active punch-in
patches that record; the theorem applied at concrete input. -/
theorem clockout_tolerance_decision_witness :
    (syncClock ⟨true, true⟩
      ⟨"alice@example.com", .valid 30000, some (.valid 3600000), true, "EDT"⟩
      stateOneActive 0).resp = .patched 0 ∧
    (syncClock ⟨true, true⟩
      ⟨"alice@example.com", .valid 30000, some (.valid 3600000), true, "EDT"⟩
      stateOneActive 0).state.sf = patchRecord stateOneActive.sf 0 3600000 := by
  have h := clockout_tolerance_decision ⟨true, true⟩ ("alice@example.com")
    ("EDT") 30000 3600000 true stateOneActive 0 record1 rfl rfl rfl rfl
    (by decide) (by decide)
  exact ⟨(h.1 (by decide)).1, (h.1 (by decide)).2.2⟩

/-- Claim C3: a clock-out request finding no active record is rejected
404 `NoActiveRecord` with no external record created or modified; and
after a clock-out that succeeded by patching the single active record,
the identical request resubmitted yields `NoActiveRecord` and changes
nothing, never a duplicate patch. -/
theorem no_active_record_rejection (o : ExtOracle) (uid tz : String)
    (cIn cOut : Int) (rem : Bool) (st : ServerState) (now : Int)
    (hlock : st.locks.any (fun l => l.userId == uid) = false)
    (hcoE : st.companies.isEmpty = false)
    (hq : o.queryOk = true)
    (hord : cIn < cOut) :
    (activeRecord st.sf.records uid = none →
       (syncClock o ⟨uid, .valid cIn, some (.valid cOut), rem, tz⟩ st now).resp
           = .noActiveRecord ∧
       ((syncClock o ⟨uid, .valid cIn, some (.valid cOut), rem, tz⟩ st now).resp).statusCode
           = 404 ∧
       (syncClock o ⟨uid, .valid cIn, some (.valid cOut), rem, tz⟩ st now).state.sf
           = st.sf ∧
       (syncClock o ⟨uid, .valid cIn, some (.valid cOut), rem, tz⟩ st now).calls
           = [.queryActive uid]) ∧
    (∀ r : SFRecord, AtMostOneActive st →
       o.writeOk = true →
       activeRecord st.sf.records uid = some r →
       (r.punchInTime - cIn).natAbs ≤ 60000 →
       (syncClock o ⟨uid, .valid cIn, some (.valid cOut), rem, tz⟩
          (syncClock o ⟨uid, .valid cIn, some (.valid cOut), rem, tz⟩ st now).state
          now).resp = .noActiveRecord ∧
       (syncClock o ⟨uid, .valid cIn, some (.valid cOut), rem, tz⟩
          (syncClock o ⟨uid, .valid cIn, some (.valid cOut), rem, tz⟩ st now).state
          now).state.sf
         = (syncClock o ⟨uid, .valid cIn, some (.valid cOut), rem, tz⟩ st now).state.sf) := by
  constructor
  · intro hnone
    rw [syncClock_clockout_noactive o uid tz cIn cOut rem st now hlock hcoE
      hq hord hnone]
    exact ⟨rfl, rfl, rfl, rfl⟩
  · intro r hInv hw hact htol
    rw [syncClock_clockout_patch o uid tz cIn cOut rem st now r hlock hcoE
      hq hw hord hact htol]
    have hx := syncClock_clockout_noactive o uid tz cIn cOut rem
      { companies := st.companies,
        locks := (st.locks ++ [LockRow.mk uid st.nextLockId now]).filter
          (fun l => l.userId != uid),
        sf := patchRecord st.sf r.recordId cOut,
        nextLockId := st.nextLockId + 1 } now
      (any_filter_ne _ _) hcoE hq hord
      (activeRecord_patch_none st.sf uid r (hInv uid) hact cOut)
    dsimp only
    rw [hx]
    exact ⟨rfl, rfl⟩

/-- Witness for C3: a concrete clock-out patches the one active record,
and the identical resubmission is answered `NoActiveRecord`. -/
theorem no_active_record_rejection_witness :
    (syncClock ⟨true, true⟩
      ⟨"alice@example.com", .valid 30000, some (.valid 3600000), true, "EDT"⟩
      (syncClock ⟨true, true⟩
        ⟨"alice@example.com", .valid 30000, some (.valid 3600000), true, "EDT"⟩
        stateOneActive 0).state 0).resp = .noActiveRecord := by
  have h := no_active_record_rejection ⟨true, true⟩ ("alice@example.com")
    ("EDT") 30000 3600000 true stateOneActive 0 rfl rfl rfl (by decide)
  exact (h.2 record1 (fun _ => List.length_filter_le _ _) rfl (by decide)
    (by decide)).1

/-- Claim C4: a clock-in-only request while an active record exists
answers HTTP 200 success with the "already clocked in" message carrying
the existing record's id, name, punch-in and location type, and performs
no external write. -/
theorem already_active_response (o : ExtOracle) (uid tz : String)
    (cIn : Int) (rem : Bool) (st : ServerState) (now : Int) (r : SFRecord)
    (hlock : st.locks.any (fun l => l.userId == uid) = false)
    (hcoE : st.companies.isEmpty = false)
    (hq : o.queryOk = true)
    (hact : activeRecord st.sf.records uid = some r) :
    (syncClock o ⟨uid, .valid cIn, none, rem, tz⟩ st now).resp
        = .alreadyClockedIn r.recordId r.name r.punchInTime r.locationType ∧
    ((syncClock o ⟨uid, .valid cIn, none, rem, tz⟩ st now).resp).statusCode
        = 200 ∧
    (syncClock o ⟨uid, .valid cIn, none, rem, tz⟩ st now).state.sf = st.sf ∧
    (syncClock o ⟨uid, .valid cIn, none, rem, tz⟩ st now).calls
        = [.queryActive uid] := by
  rw [syncClock_clockin_already o uid tz cIn rem st now r hlock hcoE hq hact]
  exact ⟨rfl, rfl, rfl, rfl⟩

/-- Witness for C4: a concrete duplicate clock-in is answered success
with the existing record surfaced and the record set untouched. -/
theorem already_active_response_witness :
    (syncClock ⟨true, true⟩
      ⟨"alice@example.com", .valid 500, none, false, "XYZ"⟩
      stateOneActive 0).resp
        = .alreadyClockedIn 0 ("alice-1970-01-01") 0 ("Remote") ∧
    (syncClock ⟨true, true⟩
      ⟨"alice@example.com", .valid 500, none, false, "XYZ"⟩
      stateOneActive 0).state.sf = stateOneActive.sf := by
  have h := already_active_response ⟨true, true⟩ ("alice@example.com")
    ("XYZ") 500 false stateOneActive 0 record1 rfl rfl rfl rfl
  exact ⟨h.1, h.2.2.1⟩

/-- Claim C5: when the lock row already exists for the subject, the
handler answers HTTP 200 "Request already being processed", issues no
external call and leaves the whole state untouched. -/
theorem lock_contention_noop (o : ExtOracle) (req : SyncRequest)
    (st : ServerState) (now : Int)
    (hlock : st.locks.any (fun l => l.userId == req.userId) = true) :
    (syncClock o req st now).resp = .alreadyProcessing ∧
    ((syncClock o req st now).resp).statusCode = 200 ∧
    (syncClock o req st now).calls = [] ∧
    (syncClock o req st now).state = st := by
  rw [syncClock_contended o req st now hlock]
  exact ⟨rfl, rfl, rfl, rfl⟩

/-- Witness for C5: a sync request for a subject whose lock row exists
is answered 200 with no calls and identical state. -/
theorem lock_contention_noop_witness :
    (syncClock ⟨true, true⟩
      ⟨"alice@example.com", .valid 0, none, true, "EDT"⟩
      stateStaleLock 7200000).resp = .alreadyProcessing ∧
    (syncClock ⟨true, true⟩
      ⟨"alice@example.com", .valid 0, none, true, "EDT"⟩
      stateStaleLock 7200000).state = stateStaleLock := by
  have h := lock_contention_noop ⟨true, true⟩
    ⟨"alice@example.com", .valid 0, none, true, "EDT"⟩ stateStaleLock
    7200000 rfl
  exact ⟨h.1, h.2.2.2⟩

/-- Claim C6: every invocation that successfully acquires the
per-subject lock has released it by the time it returns, on every
terminating path: success, business rejection, validation failure and
external-call failure alike (the oracle and request are universally
quantified, so all paths are covered). -/
theorem lock_released_on_every_path (o : ExtOracle) (req : SyncRequest)
    (st : ServerState) (now : Int)
    (hfree : st.locks.any (fun l => l.userId == req.userId) = false) :
    ((syncClock o req st now).state.locks.any
       (fun l => l.userId == req.userId)) = false := by
  unfold syncClock
  cases hc : acquireLock req.userId st now with
  | mk ol st1 =>
      cases ol with
      | none =>
          exfalso
          unfold acquireLock at hc
          rw [hfree] at hc
          simp at hc
      | some k =>
          show (((syncClockBody o req st1).state.locks.filter
              (fun l => l.userId != req.userId)).any
              (fun l => l.userId == req.userId)) = false
          exact any_filter_ne _ _

/-- Witness for C6: a concrete successful clock-in run leaves no lock
row for the subject. -/
theorem lock_released_on_every_path_witness :
    ((syncClock ⟨true, true⟩
       ⟨"alice@example.com", .valid 0, none, true, "EDT"⟩
       stateNoActive 5).state.locks.any
         (fun l => l.userId == ("alice@example.com"))) = false :=
  lock_released_on_every_path ⟨true, true⟩
    ⟨"alice@example.com", .valid 0, none, true, "EDT"⟩ stateNoActive 5 rfl

/-- Counterexample for C7: a lock row two hours old (createdAt 0, now
7200000 ms, twice the claimed 1-hour threshold) is not deleted by an
acquisition attempt — the attempt fails and the stale row survives, so
the new sync request cannot acquire the lock. -/
theorem stale_lock_not_swept_cex :
    (acquireLock ("alice@example.com") stateStaleLock 7200000).1 = none ∧
    (acquireLock ("alice@example.com") stateStaleLock 7200000).2.locks
      = [LockRow.mk ("alice@example.com") 42 0] ∧
    (7200000 : Int) - 0 > 3600000 :=
  ⟨rfl, rfl, by decide⟩

/-- Claim C7 as amended: no staleness sweep exists — `acquireLock` is a
bare insert-if-absent that never reads `created_at` and never deletes
rows, so an existing lock row blocks acquisition and stays in place
regardless of its age, until `releaseLock` removes it. -/
theorem acquire_ignores_lock_age (uid : String) (st : ServerState)
    (now : Int)
    (h : st.locks.any (fun l => l.userId == uid) = true) :
    (acquireLock uid st now).1 = none ∧ (acquireLock uid st now).2 = st := by
  unfold acquireLock
  rw [h]
  exact ⟨rfl, rfl⟩

/-- Witness for the amended C7: with an arbitrarily old lock row for the
subject, acquisition at a much later time still fails and changes
nothing. -/
theorem acquire_ignores_lock_age_witness :
    (acquireLock ("alice@example.com") stateStaleLock 999999999999).1
        = none ∧
    (acquireLock ("alice@example.com") stateStaleLock 999999999999).2
        = stateStaleLock :=
  acquire_ignores_lock_age ("alice@example.com") stateStaleLock
    999999999999 rfl

/-- Claim C8: an unparseable clock-in or clock-out is rejected 400
(invalid date), and a present clock-out not strictly after the clock-in
is rejected 400 (ordering); in each case no external call is issued and
the external record set is untouched. -/
theorem validation_rejection (o : ExtOracle) (uid tz : String)
    (rco : Option RawTime) (rem : Bool) (st : ServerState) (now : Int)
    (hlock : st.locks.any (fun l => l.userId == uid) = false)
    (hcoE : st.companies.isEmpty = false) :
    ((syncClock o ⟨uid, .invalid, rco, rem, tz⟩ st now).resp
         = .invalidClockIn ∧
     ((syncClock o ⟨uid, .invalid, rco, rem, tz⟩ st now).resp).statusCode
         = 400 ∧
     (syncClock o ⟨uid, .invalid, rco, rem, tz⟩ st now).calls = [] ∧
     (syncClock o ⟨uid, .invalid, rco, rem, tz⟩ st now).state.sf = st.sf) ∧
    (∀ cIn : Int,
     (syncClock o ⟨uid, .valid cIn, some .invalid, rem, tz⟩ st now).resp
         = .invalidClockOut ∧
     ((syncClock o ⟨uid, .valid cIn, some .invalid, rem, tz⟩ st now).resp).statusCode
         = 400 ∧
     (syncClock o ⟨uid, .valid cIn, some .invalid, rem, tz⟩ st now).calls
         = [] ∧
     (syncClock o ⟨uid, .valid cIn, some .invalid, rem, tz⟩ st now).state.sf
         = st.sf) ∧
    (∀ cIn cOut : Int, cOut ≤ cIn →
     (syncClock o ⟨uid, .valid cIn, some (.valid cOut), rem, tz⟩ st now).resp
         = .orderingViolation ∧
     ((syncClock o ⟨uid, .valid cIn, some (.valid cOut), rem, tz⟩ st now).resp).statusCode
         = 400 ∧
     (syncClock o ⟨uid, .valid cIn, some (.valid cOut), rem, tz⟩ st now).calls
         = [] ∧
     (syncClock o ⟨uid, .valid cIn, some (.valid cOut), rem, tz⟩ st now).state.sf
         = st.sf) := by
  refine ⟨?_, ?_, ?_⟩
  · simp [syncClock, acquireLock, syncClockBody, releaseLock,
      RespBody.statusCode, hlock, hcoE]
  · intro cIn
    simp [syncClock, acquireLock, syncClockBody, releaseLock,
      RespBody.statusCode, hlock, hcoE]
  · intro cIn cOut hle
    simp [syncClock, acquireLock, syncClockBody, releaseLock,
      RespBody.statusCode, hlock, hcoE, hle]

/-- Witness for C8: a request whose clock-out is not after its clock-in
is rejected with the ordering error, no calls, record set untouched. -/
theorem validation_rejection_witness :
    (syncClock ⟨true, true⟩
      ⟨"alice@example.com", .valid 5000, some (.valid 4000), true, "EDT"⟩
      stateNoActive 0).resp = .orderingViolation ∧
    (syncClock ⟨true, true⟩
      ⟨"alice@example.com", .valid 5000, some (.valid 4000), true, "EDT"⟩
      stateNoActive 0).calls = [] := by
  have h := validation_rejection ⟨true, true⟩ ("alice@example.com")
    ("EDT") (some (.valid 4000)) true stateNoActive 0 rfl rfl
  exact ⟨(h.2.2 5000 4000 (by decide)).1, (h.2.2 5000 4000 (by decide)).2.2.1⟩

/-- Claim C9: with userId, clockIn, clockOut and isRemote fixed, varying
only the timezone hint never changes the response, the external calls
(hence the stored punch-in/punch-out instants) or the resulting state;
only the display zone may differ, and unknown hints fall back to the
fixed default zone. -/
theorem timezone_hint_noninterference (o : ExtOracle) (req : SyncRequest)
    (tz2 : String) (st : ServerState) (now : Int) :
    (syncClock o { req with timezone := tz2 } st now).observable
      = (syncClock o req st now).observable ∧
    lookupTimezone ("XYZ") = ("America/New_York") := by
  constructor
  · cases req with
    | mk uid ci co rem tz =>
        unfold syncClock
        dsimp only
        cases hc : acquireLock uid st now with
        | mk ol st1 =>
            cases ol with
            | none => rfl
            | some k =>
                have h := syncClockBody_observable_timezone o uid ci co rem
                  tz2 tz st1
                simp only [SyncOutcome.observable, Prod.mk.injEq] at h ⊢
                exact ⟨h.1, h.2.1, by rw [h.2.2]⟩
  · rfl

/-- Claim C10: an invocation that fails to acquire the lock returns
before the try/finally block and therefore never deletes the existing
lock row — the lock table is exactly what it was. -/
theorem contended_sync_preserves_lock (o : ExtOracle) (req : SyncRequest)
    (st : ServerState) (now : Int)
    (hlock : st.locks.any (fun l => l.userId == req.userId) = true) :
    (syncClock o req st now).state.locks = st.locks := by
  rw [syncClock_contended o req st now hlock]

/-- Witness for C10: a contended concrete request leaves the other
invocation's lock row exactly in place. -/
theorem contended_sync_preserves_lock_witness :
    (syncClock ⟨false, false⟩
      ⟨"alice@example.com", .valid 9, some (.valid 10), false, "CST"⟩
      stateStaleLock 8000000).state.locks = stateStaleLock.locks :=
  contended_sync_preserves_lock ⟨false, false⟩
    ⟨"alice@example.com", .valid 9, some (.valid 10), false, "CST"⟩
    stateStaleLock 8000000 rfl
